import Mathlib

/-!
Shallow embedding of the node-printer-driver library (src/index.ts,
src/unix-printer.ts, src/pdf-printer.ts) and proofs that settle the
spec claims about option translation, platform dispatch, error
classification and the spooler-call pairing discipline.

JavaScript strings are embedded as Lean `String` (with character-list
helpers so the kernel can evaluate them), JS truthiness of optional
strings and numbers is made explicit, the filesystem and the shell are
abstract environments (`UnixEnv`, a path-status map plus a map from
command strings to exec outcomes), and the Windows spooler is an
environment of call outcomes; every effectful operation also returns the
trace of external calls it made.
-/

namespace NodePrinterDriver

/-! ## Character-list string utilities (kernel-evaluable) -/

/-- Splits a character list at every newline, like the JS `split('\n')`. -/
def splitOnNl : List Char → List (List Char)
  | [] => [[]]
  | c :: rest =>
    let r := splitOnNl rest
    if c = '\n' then [] :: r
    else
      match r with
      | [] => [[c]]
      | h :: t => (c :: h) :: t

/-- Boolean list-prefix test on characters. -/
def isPrefixL : List Char → List Char → Bool
  | [], _ => true
  | _ :: _, [] => false
  | p :: ps, c :: cs => p == c && isPrefixL ps cs

/-- Remainder of the haystack after the first occurrence of the pattern,
`none` when the pattern does not occur. -/
def subAfter (pat : List Char) : List Char → Option (List Char)
  | [] => if isPrefixL pat [] then some [] else none
  | c :: rest =>
    if isPrefixL pat (c :: rest) then some ((c :: rest).drop pat.length)
    else subAfter pat rest

/-- JS `String.prototype.includes` for a non-empty pattern. -/
def jsIncludes (s pat : String) : Bool :=
  (subAfter pat.data s.data).isSome

/-- JS `String.prototype.startsWith`. -/
def jsStartsWith (s pat : String) : Bool :=
  isPrefixL pat.data s.data

/-- JS `String.prototype.trim` (whitespace from both ends). -/
def trimChars (l : List Char) : List Char :=
  ((l.dropWhile (fun c => c.isWhitespace)).reverse.dropWhile
    (fun c => c.isWhitespace)).reverse

/-- JS `a || b` on an optional string: the fallback is used when the
option is absent or the string is empty (falsy). -/
def jsStrOr (a : Option String) (b : String) : String :=
  match a with
  | some s => if s = "" then b else s
  | none => b

/-- JS truthiness of an optional string (`undefined`, `null` and `''`
are falsy). -/
def jsTruthyStr : Option String → Bool
  | some s => s != ""
  | none => false

/-- JS falsiness of an optional number (`undefined` and `0` are falsy). -/
def jsFalsyNum : Option Int → Bool
  | none => true
  | some n => n == 0

/-- Joins argument strings with single spaces, like the JS
`args.join(' ')`. -/
def joinSpace : List String → String
  | [] => ""
  | [x] => x
  | x :: y :: rest => x ++ " " ++ joinSpace (y :: rest)

/-! ## Shared data model -/

/-- The `duplex` print option (`'simplex' | 'horizontal' | 'vertical'`). -/
inductive Duplex
  | simplex
  | horizontal
  | vertical
deriving DecidableEq, Repr

/-- The `orientation` print option (`'portrait' | 'landscape'`). -/
inductive Orient
  | portrait
  | landscape
deriving DecidableEq, Repr

/-- Status of a path in the abstract filesystem: absent, a regular
file, or present but not a regular file (`fs.existsSync` /
`fs.statSync(..).isFile()`). -/
inductive PathStat
  | missing
  | regularFile
  | notAFile
deriving DecidableEq, Repr

/-- Outcome of executing a shell command through `execAsync`: resolution
with captured stdout and stderr, or rejection with an error message. -/
inductive ExecOutcome
  | ok (stdout stderr : String)
  | fail (message : String)
deriving DecidableEq, Repr

/-- The abstract Unix host: what the filesystem says about each path and
what each shell command does. -/
structure UnixEnv where
  pathStat : String → PathStat
  exec : String → ExecOutcome

/-! ## UnixPrinterManager (src/unix-printer.ts lines 16-70) -/

/-- `UnixPrinterInfo` record (name, raw status text, default flag;
description/location are never populated by the parser). -/
structure UnixPrinterInfo where
  name : String
  status : String
  isDefault : Bool
deriving DecidableEq, Repr

/-- The command `getAvailablePrinters` runs. -/
def lpstatListCmd : String := "lpstat -p -d 2>/dev/null || lpstat -p"

/-- The command `getDefaultPrinter` runs. -/
def lpstatDefaultCmd : String := "lpstat -d 2>/dev/null"

/-- The regex match `/default destination:\s+(\S+)/` of
`getDefaultPrinter`: after the first occurrence of
`default destination:` there must be at least one whitespace character
and then a non-empty run of non-whitespace characters, which is the
captured printer name. -/
def parseDefaultDest (stdout : String) : Option String :=
  match subAfter "default destination:".data stdout.data with
  | none => none
  | some rest =>
    let ws := rest.takeWhile (fun c => c.isWhitespace)
    if ws.isEmpty then none
    else
      let name := (rest.dropWhile (fun c => c.isWhitespace)).takeWhile
        (fun c => !c.isWhitespace)
      if name.isEmpty then none else some (String.mk name)

/-- The regex match `/printer\s+(\S+)\s+(.*)/` applied to a line that
already starts with `printer`: whitespace, the printer name, more
whitespace, then the rest of the line as status text. -/
def parsePrinterLine (line : String) : Option (String × String) :=
  if jsStartsWith line "printer" then
    let rest := line.data.drop 7
    let ws1 := rest.takeWhile (fun c => c.isWhitespace)
    let r1 := rest.dropWhile (fun c => c.isWhitespace)
    let name := r1.takeWhile (fun c => !c.isWhitespace)
    let r2 := r1.dropWhile (fun c => !c.isWhitespace)
    let ws2 := r2.takeWhile (fun c => c.isWhitespace)
    let status := r2.dropWhile (fun c => c.isWhitespace)
    if ws1.isEmpty || name.isEmpty || ws2.isEmpty then none
    else some (String.mk name, String.mk status)
  else none

/-- `UnixPrinterManager.getDefaultPrinter`: runs `lpstat -d`, parses the
default destination; the surrounding `try/catch` turns an exec failure
into a `null` result. Returns the result and the trace of commands run.
The `Except` return type records that the JS function could in
principle reject; the catch clause means it never does. -/
def UnixPrinterManager.getDefaultPrinter (env : UnixEnv) :
    Except String (Option String) × List String :=
  match env.exec lpstatDefaultCmd with
  | ExecOutcome.ok stdout _ => (Except.ok (parseDefaultDest stdout), [lpstatDefaultCmd])
  | ExecOutcome.fail _ => (Except.ok none, [lpstatDefaultCmd])

/-- `UnixPrinterManager.getAvailablePrinters`: runs `lpstat -p -d`,
fetches the default printer, keeps the stdout lines starting with
`printer` and parses each; the surrounding `try/catch` turns any
failure into an empty list. -/
def UnixPrinterManager.getAvailablePrinters (env : UnixEnv) :
    Except String (List UnixPrinterInfo) × List String :=
  match env.exec lpstatListCmd with
  | ExecOutcome.fail _ => (Except.ok [], [lpstatListCmd])
  | ExecOutcome.ok stdout _ =>
    match UnixPrinterManager.getDefaultPrinter env with
    | (Except.error _, dtr) => (Except.ok [], lpstatListCmd :: dtr)
    | (Except.ok defaultPrinter, dtr) =>
      let lines := (splitOnNl stdout.data).map String.mk
      let kept := lines.filter (fun l => jsStartsWith l "printer")
      let printers := kept.filterMap (fun l =>
        (parsePrinterLine l).map (fun p =>
          UnixPrinterInfo.mk p.1 p.2 (defaultPrinter == some p.1)))
      (Except.ok printers, lpstatListCmd :: dtr)

/-- `UnixPrinterManager.printerExists`: membership of the name among
the available printers. -/
def UnixPrinterManager.printerExists (env : UnixEnv) (name : String) :
    Except String Bool × List String :=
  match UnixPrinterManager.getAvailablePrinters env with
  | (Except.error e, tr) => (Except.error e, tr)
  | (Except.ok ps, tr) => (Except.ok (ps.any (fun p => p.name == name)), tr)

/-! ## UnixPDFPrinter (src/unix-printer.ts lines 82-251) -/

/-- Print options accepted by `UnixPDFPrinter.print`
(`UnixPrintOptions`). Absent fields model JS `undefined`. -/
structure UnixPrintOptions where
  printer : Option String
  copies : Option Nat
  duplex : Option Duplex
  paperSize : Option String
  orient : Option Orient
  color : Option Bool
  fitToPage : Option Bool
deriving DecidableEq, Repr

/-- Instance state of a `UnixPDFPrinter`: the stored printer name and
the `initialized` flag. -/
structure UnixPrinterState where
  printerName : String
  initialized : Bool
deriving DecidableEq, Repr

/-- The `UnixPDFPrinter` constructor: stores `printerName || ''` and
throws `Printer name cannot be empty` when a truthy name trims to
nothing. -/
def UnixPDFPrinter.mkPrinter (printerName : Option String) :
    Except String UnixPrinterState :=
  let name := jsStrOr printerName ""
  if jsTruthyStr printerName then
    match printerName with
    | some s =>
      if (trimChars s.data).isEmpty then
        Except.error "Printer name cannot be empty"
      else Except.ok (UnixPrinterState.mk name false)
    | none => Except.ok (UnixPrinterState.mk name false)
  else Except.ok (UnixPrinterState.mk name false)

/-- `UnixPDFPrinter.initialize`: resolves the effective printer name on
first use — the default printer, else the first available printer
(failing with `No printers found on this system` when there is none),
else validates the provided name via `printerExists`, failing with
`Printer not found: <name>`. Returns the updated state and the command
trace. -/
def UnixPDFPrinter.init (env : UnixEnv) (st : UnixPrinterState) :
    Except String UnixPrinterState × List String :=
  if st.initialized then (Except.ok st, [])
  else if st.printerName = "" then
    match UnixPrinterManager.getDefaultPrinter env with
    | (Except.error e, tr) => (Except.error e, tr)
    | (Except.ok dp, tr) =>
      if jsTruthyStr dp then
        (Except.ok (UnixPrinterState.mk (dp.getD "") true), tr)
      else
        match UnixPrinterManager.getAvailablePrinters env with
        | (Except.error e, tr2) => (Except.error e, tr ++ tr2)
        | (Except.ok [], tr2) =>
          (Except.error "No printers found on this system", tr ++ tr2)
        | (Except.ok (p :: _), tr2) =>
          (Except.ok (UnixPrinterState.mk p.name true), tr ++ tr2)
  else
    match UnixPrinterManager.printerExists env st.printerName with
    | (Except.error e, tr) => (Except.error e, tr)
    | (Except.ok b, tr) =>
      if b then (Except.ok (UnixPrinterState.mk st.printerName true), tr)
      else (Except.error ("Printer not found: " ++ st.printerName), tr)

/-- The `-n <copies>` block: emitted when `options.copies` is truthy and
greater than 1. -/
def copiesArgs : Option Nat → List String
  | some n => if n != 0 && n > 1 then ["-n", toString n] else []
  | none => []

/-- The duplex switch block of `UnixPDFPrinter.print`. -/
def duplexArgs : Option Duplex → List String
  | some Duplex.simplex => ["-o", "sides=one-sided"]
  | some Duplex.horizontal => ["-o", "sides=two-sided-short-edge"]
  | some Duplex.vertical => ["-o", "sides=two-sided-long-edge"]
  | none => []

/-- The `media=<paperSize>` block (skipped for a falsy string). -/
def mediaArgs : Option String → List String
  | some s => if s = "" then [] else ["-o", "media=" ++ s]
  | none => []

/-- The `orientation-requested` block: 4 for landscape, 3 for portrait. -/
def orientArgs : Option Orient → List String
  | some o =>
    ["-o", "orientation-requested=" ++ (if o = Orient.landscape then "4" else "3")]
  | none => []

/-- The `print-color-mode` block (emitted whenever `color` is defined). -/
def colorArgs : Option Bool → List String
  | some b => ["-o", "print-color-mode=" ++ (if b then "color" else "monochrome")]
  | none => []

/-- The `fit-to-page` block (emitted when `fitToPage` is truthy). -/
def fitToPageArgs : Option Bool → List String
  | some true => ["-o", "fit-to-page"]
  | some false => []
  | none => []

/-- The full `lp` argument list built by `UnixPDFPrinter.print`:
destination, then the option blocks in source order, then the file
path. -/
def buildLpArgs (instName pdfPath : String) (o : UnixPrintOptions) : List String :=
  ["-d", jsStrOr o.printer instName]
    ++ copiesArgs o.copies
    ++ duplexArgs o.duplex
    ++ mediaArgs o.paperSize
    ++ orientArgs o.orient
    ++ colorArgs o.color
    ++ fitToPageArgs o.fitToPage
    ++ [pdfPath]

/-- The command string `lp ${args.join(' ')}`. -/
def lpCommand (instName pdfPath : String) (o : UnixPrintOptions) : String :=
  "lp " ++ joinSpace (buildLpArgs instName pdfPath o)

deriving instance DecidableEq for Except

/-- Result of a Unix print call: the JS resolution/rejection and the
trace of every shell command executed. -/
structure UnixPrintOutcome where
  result : Except String Unit
  execed : List String
deriving DecidableEq, Repr

/-- `UnixPDFPrinter.print`: validates the file (`PDF file not found` /
`Path is not a file`), initializes, builds and runs the `lp` command;
non-`request id` stderr or a failed command is rethrown wrapped in
`Failed to print: ...`. -/
def UnixPDFPrinter.print (env : UnixEnv) (st : UnixPrinterState)
    (pdfPath : String) (o : UnixPrintOptions) : UnixPrintOutcome :=
  match env.pathStat pdfPath with
  | PathStat.missing =>
    UnixPrintOutcome.mk (Except.error ("PDF file not found: " ++ pdfPath)) []
  | PathStat.notAFile =>
    UnixPrintOutcome.mk (Except.error ("Path is not a file: " ++ pdfPath)) []
  | PathStat.regularFile =>
    match UnixPDFPrinter.init env st with
    | (Except.error e, tr) => UnixPrintOutcome.mk (Except.error e) tr
    | (Except.ok st2, tr) =>
      let cmd := lpCommand st2.printerName pdfPath o
      match env.exec cmd with
      | ExecOutcome.fail msg =>
        UnixPrintOutcome.mk (Except.error ("Failed to print: " ++ msg)) (tr ++ [cmd])
      | ExecOutcome.ok _ stderr =>
        if stderr != "" && !(jsIncludes stderr "request id") then
          UnixPrintOutcome.mk
            (Except.error ("Failed to print: Print command failed: " ++ stderr))
            (tr ++ [cmd])
        else UnixPrintOutcome.mk (Except.ok ()) (tr ++ [cmd])

/-- Outcome of `writeFileSync` in the abstract host: success, or a
failure carrying the rejection message and whether the partial file
exists afterwards. -/
inductive WriteRes
  | succeeds
  | fails (postExists : Bool) (msg : String)
deriving DecidableEq, Repr

/-- Pointwise update of a path-status map. -/
def updateStat (fsStat : String → PathStat) (p : String) (s : PathStat) :
    String → PathStat :=
  fun q => if q = p then s else fsStat q

/-- The temporary path `path.join('/tmp', documentName + '-' + Date.now() + '.pdf')`
used by `UnixPDFPrinter.printRaw`. -/
def tempPdfPath (documentName : String) (ts : Nat) : String :=
  "/tmp/" ++ documentName ++ "-" ++ toString ts ++ ".pdf"

/-- Result of `UnixPDFPrinter.printRaw`: the resolution, the final
path-status map, and the commands executed. -/
structure RawOutcome where
  result : Except String Unit
  finalStat : String → PathStat
  execed : List String

/-- `UnixPDFPrinter.printRaw`: writes the buffer to the temp file,
prints it via `print`, and in a `finally` unlinks the temp file when it
still exists — whether the write or the print succeeded or failed. -/
def UnixPDFPrinter.printRaw (env : UnixEnv) (writeRes : WriteRes)
    (st : UnixPrinterState) (documentName : String) (ts : Nat)
    (o : UnixPrintOptions) : RawOutcome :=
  let tempFile := tempPdfPath documentName ts
  match writeRes with
  | WriteRes.fails postExists msg =>
    let fs1 := updateStat env.pathStat tempFile
      (if postExists then PathStat.regularFile else PathStat.missing)
    RawOutcome.mk (Except.error msg) (updateStat fs1 tempFile PathStat.missing) []
  | WriteRes.succeeds =>
    let fs1 := updateStat env.pathStat tempFile PathStat.regularFile
    let env1 := UnixEnv.mk fs1 env.exec
    let pr := UnixPDFPrinter.print env1 st tempFile o
    RawOutcome.mk pr.result (updateStat fs1 tempFile PathStat.missing) pr.execed

/-! ## Windows constants (imported by src/pdf-printer.ts from
windows-print-api.ts, which is not under src/) -/

/-- Modelled from the spec: windows-print-api.ts is not under src/; the
spec says the constant table reproduces the vendor `DEVMODE` field
flags, so this is wingdi's `DM_ORIENTATION`. -/
def DM_ORIENTATION : Nat := 0x1

/-- Modelled from the spec: vendor `DEVMODE` flag `DM_PAPERSIZE`
(windows-print-api.ts is not under src/). -/
def DM_PAPERSIZE : Nat := 0x2

/-- Modelled from the spec: vendor `DEVMODE` flag `DM_COPIES`
(windows-print-api.ts is not under src/). -/
def DM_COPIES : Nat := 0x100

/-- Modelled from the spec: vendor `DEVMODE` flag `DM_DEFAULTSOURCE`
(windows-print-api.ts is not under src/). -/
def DM_DEFAULTSOURCE : Nat := 0x200

/-- Modelled from the spec: vendor `DEVMODE` flag `DM_COLOR`
(windows-print-api.ts is not under src/). -/
def DM_COLOR : Nat := 0x800

/-- Modelled from the spec: vendor `DEVMODE` flag `DM_DUPLEX`
(windows-print-api.ts is not under src/). -/
def DM_DUPLEX : Nat := 0x1000

/-- Modelled from the spec: vendor duplex constant `DMDUP_SIMPLEX`
(windows-print-api.ts is not under src/). -/
def DUPLEX_SIMPLEX : Nat := 1

/-- Modelled from the spec: vendor duplex constant `DMDUP_VERTICAL`
(windows-print-api.ts is not under src/). -/
def DUPLEX_VERTICAL : Nat := 2

/-- Modelled from the spec: vendor duplex constant `DMDUP_HORIZONTAL`
(windows-print-api.ts is not under src/). -/
def DUPLEX_HORIZONTAL : Nat := 3

/-- Modelled from the spec: vendor orientation constant
`DMORIENT_PORTRAIT` (windows-print-api.ts is not under src/). -/
def PORTRAIT : Nat := 1

/-- Modelled from the spec: vendor orientation constant
`DMORIENT_LANDSCAPE` (windows-print-api.ts is not under src/). -/
def LANDSCAPE : Nat := 2

/-- Modelled from the spec: vendor color constant `DMCOLOR_MONOCHROME`
(windows-print-api.ts is not under src/). -/
def MONOCHROME : Nat := 1

/-- Modelled from the spec: vendor color constant `DMCOLOR_COLOR`
(windows-print-api.ts is not under src/). -/
def COLOR : Nat := 2

/-! ## Windows PDFPrinter (src/pdf-printer.ts) -/

/-- `PrintOptions` of src/pdf-printer.ts. `copies` is an `Int` so that
the JS truthiness test (`options.copies && options.copies > 0`) keeps
its two conjuncts. -/
structure WinPrintOptions where
  printer : Option String
  copies : Option Int
  duplex : Option Duplex
  paperSize : Option Nat
  paperSource : Option Nat
  orient : Option Orient
  color : Option Bool
  quality : Option Nat
  collate : Option Bool
deriving DecidableEq, Repr

/-- The `DEVMODE`-shaped record assembled by
`PDFPrinter.createDevMode`: `dmFields` plus the optionally-set fields. -/
structure DevMode where
  dmFields : Nat
  dmCopies : Option Int
  dmDuplex : Option Nat
  dmPaperSize : Option Nat
  dmDefaultSource : Option Nat
  dmOrientation : Option Nat
  dmColor : Option Nat
deriving DecidableEq, Repr

/-- `PDFPrinter.createDevMode` (src/pdf-printer.ts lines 183-235):
starts from `dmFields = 0` and, per provided option, sets the matching
`DEVMODE` field and ORs the corresponding `DM_*` flag into `dmFields`. -/
def createDevMode (o : WinPrintOptions) : DevMode :=
  let d0 : DevMode := DevMode.mk 0 none none none none none none
  let d1 :=
    match o.copies with
    | some c =>
      if c != 0 && c > 0 then
        { d0 with dmCopies := some c, dmFields := d0.dmFields ||| DM_COPIES }
      else d0
    | none => d0
  let d2 :=
    match o.duplex with
    | some dup =>
      let v :=
        match dup with
        | Duplex.simplex => DUPLEX_SIMPLEX
        | Duplex.horizontal => DUPLEX_HORIZONTAL
        | Duplex.vertical => DUPLEX_VERTICAL
      { d1 with dmDuplex := some v, dmFields := d1.dmFields ||| DM_DUPLEX }
    | none => d1
  let d3 :=
    match o.paperSize with
    | some n =>
      if n != 0 then
        { d2 with dmPaperSize := some n, dmFields := d2.dmFields ||| DM_PAPERSIZE }
      else d2
    | none => d2
  let d4 :=
    match o.paperSource with
    | some n =>
      if n != 0 then
        { d3 with dmDefaultSource := some n,
                  dmFields := d3.dmFields ||| DM_DEFAULTSOURCE }
      else d3
    | none => d3
  let d5 :=
    match o.orient with
    | some r =>
      { d4 with dmOrientation := some (if r = Orient.portrait then PORTRAIT else LANDSCAPE),
                dmFields := d4.dmFields ||| DM_ORIENTATION }
    | none => d4
  let d6 :=
    match o.color with
    | some b =>
      { d5 with dmColor := some (if b then COLOR else MONOCHROME),
                dmFields := d5.dmFields ||| DM_COLOR }
    | none => d5
  d6

/-- One externally visible Windows spooler call made by `print` /
`printRaw`. Events are recorded when the call is issued (`openP` only on
a successful open, since a failed `openPrinter` yields no handle). -/
inductive SpoolEv
  | openP
  | closeP
  | startDocCall
  | endDoc
  | startPageCall
  | endPage
  | writeCall
deriving DecidableEq, Repr

/-- Outcomes of the spooler calls a single print operation makes.
`openPrinter` lives in printer-manager.ts (not under src/), so its
outcome and failure message are abstract; `startDocRes` is the
`StartDocPrinterW` return (`none` models `undefined`); `lastErrorRes`
is `GetLastError` (`none` models the binding throwing, which
`PDFPrinter.getLastError` turns into 0). -/
structure WinSpoolEnv where
  openOk : Bool
  openErrMsg : String
  startDocRes : Option Int
  startPageOk : Bool
  writeOk : Bool
  lastErrorRes : Option Nat
deriving DecidableEq, Repr

/-- `PDFPrinter.getLastError`: `GetLastError()` under a `try/catch`
that returns 0. -/
def PDFPrinter.getLastErr (spool : WinSpoolEnv) : Nat :=
  match spool.lastErrorRes with
  | some c => c
  | none => 0

/-- The document-printing core shared verbatim by `PDFPrinter.print`
and `PDFPrinter.printRaw` after the printer handle is open: nested
`try/finally` blocks that always run `EndPagePrinter`, `EndDocPrinter`
and `ClosePrinter` once their opening call succeeded. The `Bool`
argument is the job-id check of the caller (`!jobId || jobId === 0` in
`print`, `jobId === 0 || jobId === undefined` in `printRaw`), which the
callers compute from `startDocRes`. -/
def winDocCore (spool : WinSpoolEnv) (jobIdBad : Bool) :
    Except String Unit × List SpoolEv :=
  if jobIdBad then
    (Except.error ("Failed to start print job. Windows error code: "
        ++ toString (PDFPrinter.getLastErr spool)),
     [SpoolEv.openP, SpoolEv.startDocCall, SpoolEv.closeP])
  else if !spool.startPageOk then
    (Except.error "Failed to start page",
     [SpoolEv.openP, SpoolEv.startDocCall, SpoolEv.startPageCall,
      SpoolEv.endDoc, SpoolEv.closeP])
  else if !spool.writeOk then
    (Except.error "Failed to write data to printer",
     [SpoolEv.openP, SpoolEv.startDocCall, SpoolEv.startPageCall,
      SpoolEv.writeCall, SpoolEv.endPage, SpoolEv.endDoc, SpoolEv.closeP])
  else
    (Except.ok (),
     [SpoolEv.openP, SpoolEv.startDocCall, SpoolEv.startPageCall,
      SpoolEv.writeCall, SpoolEv.endPage, SpoolEv.endDoc, SpoolEv.closeP])

/-- `PDFPrinter.print` (src/pdf-printer.ts lines 74-135): validates the
file, opens the printer (`options.printer || this.printerName`), builds
the DEVMODE, starts the document and pages, and unwinds the
`try/finally` nest. The job-id test is `!jobId || jobId === 0`. -/
def PDFPrinter.winPrint (spool : WinSpoolEnv) (fsStat : String → PathStat)
    (instName : String) (pdfPath : String) (o : WinPrintOptions) :
    Except String Unit × List SpoolEv :=
  match fsStat pdfPath with
  | PathStat.missing => (Except.error ("PDF file not found: " ++ pdfPath), [])
  | PathStat.notAFile => (Except.error ("Path is not a file: " ++ pdfPath), [])
  | PathStat.regularFile =>
    if !spool.openOk then (Except.error spool.openErrMsg, [])
    else
      let _ := createDevMode o
      winDocCore spool (jsFalsyNum spool.startDocRes)

/-- `PDFPrinter.printRaw` (src/pdf-printer.ts lines 140-178): same
spooler sequence without the file validation; the job-id test is
`jobId === 0 || jobId === undefined`. -/
def PDFPrinter.winPrintRaw (spool : WinSpoolEnv) (documentName : String)
    (o : WinPrintOptions) : Except String Unit × List SpoolEv :=
  if !spool.openOk then (Except.error spool.openErrMsg, [])
  else
    winDocCore spool
      (spool.startDocRes == some 0 || spool.startDocRes == none)

/-! ## Windows PrinterManager surface used by the constructor
(printer-manager.ts is not under src/) -/

/-- Modelled from the spec: printer-manager.ts is not under src/. The
spec's error model says construction classifies printer-not-found
against the printers the spooler enumerates, so the manager surface is
the list of available printer names and the (possibly absent) default
printer name. -/
structure WinManagerEnv where
  printers : List String
  defaultPrinter : Option String
deriving DecidableEq, Repr

/-- Modelled from the spec: `PrinterManager.printerExists` of the
missing printer-manager.ts — the name is checked against the available
printers. -/
def WinPrinterManager.printerExists (env : WinManagerEnv) (name : String) : Bool :=
  env.printers.contains name

/-- The Windows `PDFPrinter` constructor (src/pdf-printer.ts lines
49-69): a truthy provided name must exist (`Printer not found: <name>`),
otherwise the default printer is used, falling back to the first
available printer and failing with `No printers found on this system`
when there is none. Returns the chosen printer name. -/
def PDFPrinter.mkWin (env : WinManagerEnv) (printerName : Option String) :
    Except String String :=
  if jsTruthyStr printerName then
    let name := printerName.getD ""
    if !WinPrinterManager.printerExists env name then
      Except.error ("Printer not found: " ++ name)
    else Except.ok name
  else
    if jsTruthyStr env.defaultPrinter then Except.ok (env.defaultPrinter.getD "")
    else
      match env.printers with
      | [] => Except.error "No printers found on this system"
      | p :: _ => Except.ok p

/-! ## Cross-platform facade (src/index.ts) -/

/-- `isWindows = os.platform() === 'win32'` (src/index.ts line 11). -/
def isWindowsPlatform (plat : String) : Bool := plat == "win32"

/-- `getPlatform()` (src/index.ts lines 132-134). -/
def getPlatform (plat : String) : String :=
  if isWindowsPlatform plat then "windows" else "unix"

/-- Which platform implementation a facade member delegates to. -/
inductive Backend
  | windows
  | unix
deriving DecidableEq, Repr

/-- The implementation chosen by the cross-platform `PDFPrinter`
constructor (src/index.ts lines 53-61). -/
def PDFPrinter.backend (plat : String) : Backend :=
  if isWindowsPlatform plat then Backend.windows else Backend.unix

/-- Delegation of `PrinterManager.getAvailablePrinters`
(src/index.ts lines 87-93). -/
def PrinterManager.getAvailablePrintersBackend (plat : String) : Backend :=
  if isWindowsPlatform plat then Backend.windows else Backend.unix

/-- Delegation of `PrinterManager.getDefaultPrinter`
(src/index.ts lines 95-101). -/
def PrinterManager.getDefaultPrinterBackend (plat : String) : Backend :=
  if isWindowsPlatform plat then Backend.windows else Backend.unix

/-- Delegation of `PrinterManager.printerExists`
(src/index.ts lines 103-109). -/
def PrinterManager.printerExistsBackend (plat : String) : Backend :=
  if isWindowsPlatform plat then Backend.windows else Backend.unix

/-- `PrinterManager.getPrinterCapabilities` (src/index.ts lines
111-116): delegates to the Windows manager on Windows and returns
`null` on Unix; the Windows result is abstract. -/
def PrinterManager.getPrinterCapabilitiesDispatch {α : Type}
    (plat : String) (winResult : Option α) : Option α :=
  if isWindowsPlatform plat then winResult else none

/-! ## Claim theorems -/

/-- C1: duplex option translation is correct on both platforms — the
Unix `lp` switch emits `sides=one-sided` / `sides=two-sided-short-edge` /
`sides=two-sided-long-edge` for `simplex` / `horizontal` / `vertical`
and nothing when duplex is absent; the Windows `createDevMode` sets
`dmDuplex` to `DUPLEX_SIMPLEX` / `DUPLEX_HORIZONTAL` / `DUPLEX_VERTICAL`
with the `DM_DUPLEX` bit of `dmFields` set, and leaves `dmDuplex` unset
and the `DM_DUPLEX` bit clear when duplex is absent. -/
theorem c1_duplex_option_translation (ou : UnixPrintOptions) (ow : WinPrintOptions) :
    (ou.duplex = some Duplex.simplex →
      duplexArgs ou.duplex = ["-o", "sides=one-sided"]) ∧
    (ou.duplex = some Duplex.horizontal →
      duplexArgs ou.duplex = ["-o", "sides=two-sided-short-edge"]) ∧
    (ou.duplex = some Duplex.vertical →
      duplexArgs ou.duplex = ["-o", "sides=two-sided-long-edge"]) ∧
    (ou.duplex = none → duplexArgs ou.duplex = []) ∧
    (ow.duplex = some Duplex.simplex →
      (createDevMode ow).dmDuplex = some DUPLEX_SIMPLEX ∧
      (createDevMode ow).dmFields &&& DM_DUPLEX = DM_DUPLEX) ∧
    (ow.duplex = some Duplex.horizontal →
      (createDevMode ow).dmDuplex = some DUPLEX_HORIZONTAL ∧
      (createDevMode ow).dmFields &&& DM_DUPLEX = DM_DUPLEX) ∧
    (ow.duplex = some Duplex.vertical →
      (createDevMode ow).dmDuplex = some DUPLEX_VERTICAL ∧
      (createDevMode ow).dmFields &&& DM_DUPLEX = DM_DUPLEX) ∧
    (ow.duplex = none →
      (createDevMode ow).dmDuplex = none ∧
      (createDevMode ow).dmFields &&& DM_DUPLEX = 0) := by
  obtain ⟨wp, wc, wdup, wps, wsrc, wori, wcol, wq, wcoll⟩ := ow
  refine ⟨?_, ?_, ?_, ?_, ?_, ?_, ?_, ?_⟩ <;> intro h
  · rw [h]; rfl
  · rw [h]; rfl
  · rw [h]; rfl
  · rw [h]; rfl
  · have h2 : wdup = some Duplex.simplex := h
    subst h2
    cases wc <;> cases wps <;> cases wsrc <;> cases wori <;> cases wcol <;>
      simp only [createDevMode] <;>
      first
        | (split_ifs <;> constructor <;> (first | rfl | (simp <;> decide)))
        | (constructor <;> (first | rfl | (simp <;> decide)))
  · have h2 : wdup = some Duplex.horizontal := h
    subst h2
    cases wc <;> cases wps <;> cases wsrc <;> cases wori <;> cases wcol <;>
      simp only [createDevMode] <;>
      first
        | (split_ifs <;> constructor <;> (first | rfl | (simp <;> decide)))
        | (constructor <;> (first | rfl | (simp <;> decide)))
  · have h2 : wdup = some Duplex.vertical := h
    subst h2
    cases wc <;> cases wps <;> cases wsrc <;> cases wori <;> cases wcol <;>
      simp only [createDevMode] <;>
      first
        | (split_ifs <;> constructor <;> (first | rfl | (simp <;> decide)))
        | (constructor <;> (first | rfl | (simp <;> decide)))
  · have h2 : wdup = none := h
    subst h2
    cases wc <;> cases wps <;> cases wsrc <;> cases wori <;> cases wcol <;>
      simp only [createDevMode] <;>
      first
        | (split_ifs <;> constructor <;> (first | rfl | (simp <;> decide)))
        | (constructor <;> (first | rfl | (simp <;> decide)))

/-- Sample Unix options with duplex 'vertical' for the C1 witness. -/
def ouDupVert : UnixPrintOptions :=
  UnixPrintOptions.mk none none (some Duplex.vertical) none none none none

/-- Sample Windows options with duplex 'vertical' for the C1 witness. -/
def owDupVert : WinPrintOptions :=
  WinPrintOptions.mk none none (some Duplex.vertical) none none none none none none

/-- Witness for C1 at duplex 'vertical' on both platforms. -/
theorem c1_duplex_option_translation_witness :
    duplexArgs ouDupVert.duplex = ["-o", "sides=two-sided-long-edge"] ∧
    (createDevMode owDupVert).dmDuplex = some DUPLEX_VERTICAL ∧
    (createDevMode owDupVert).dmFields &&& DM_DUPLEX = DM_DUPLEX :=
  ⟨(c1_duplex_option_translation ouDupVert owDupVert).2.2.1 rfl,
   ((c1_duplex_option_translation ouDupVert owDupVert).2.2.2.2.2.2.1 rfl).1,
   ((c1_duplex_option_translation ouDupVert owDupVert).2.2.2.2.2.2.1 rfl).2⟩

/-- Spec-side (C2): the effective printer of the claim — options.printer
if given, otherwise the instance's printer name. -/
def specPrinter (p : Option String) (instName : String) : String :=
  match p with
  | some s => s
  | none => instName

/-- Spec-side (C2): `-n <copies>` if and only if copies is given and
greater than 1. -/
def specCopies : Option Nat → List String
  | some n => if n > 1 then ["-n", toString n] else []
  | none => []

/-- Spec-side (C1/C2): the `sides=` option values of the claim. -/
def specSides : Option Duplex → List String
  | some Duplex.simplex => ["-o", "sides=one-sided"]
  | some Duplex.horizontal => ["-o", "sides=two-sided-short-edge"]
  | some Duplex.vertical => ["-o", "sides=two-sided-long-edge"]
  | none => []

/-- Spec-side (C2): `media=<paperSize>` when requested. -/
def specMedia : Option String → List String
  | some s => ["-o", "media=" ++ s]
  | none => []

/-- Spec-side (C2): `orientation-requested=4` for landscape and `3` for
portrait. -/
def specOrientReq : Option Orient → List String
  | some Orient.landscape => ["-o", "orientation-requested=4"]
  | some Orient.portrait => ["-o", "orientation-requested=3"]
  | none => []

/-- Spec-side (C2): `print-color-mode=color/monochrome`. -/
def specColorMode : Option Bool → List String
  | some true => ["-o", "print-color-mode=color"]
  | some false => ["-o", "print-color-mode=monochrome"]
  | none => []

/-- Spec-side (C2): `fit-to-page` when requested. -/
def specFit : Option Bool → List String
  | some true => ["-o", "fit-to-page"]
  | some false => []
  | none => []

/-- Spec-side restatement of the C2 command grammar, written from the
claim's words: `lp -d <printer> [-n <copies>] [-o <option>=<value>]... <file>`
with the effective printer, the conditional `-n`, the requested
`-o key=value` options, and the file path last. -/
def cupsGrammarSpec (instName pdfPath : String) (o : UnixPrintOptions) :
    List String :=
  ["-d", specPrinter o.printer instName]
    ++ specCopies o.copies
    ++ specSides o.duplex
    ++ specMedia o.paperSize
    ++ specOrientReq o.orient
    ++ specColorMode o.color
    ++ specFit o.fitToPage
    ++ [pdfPath]

/-- The code's destination fallback agrees with the claim's effective
printer when the given printer name is not the empty string. -/
theorem jsStrOr_eq_specPrinter (a : Option String) (b : String)
    (h : a ≠ some "") : jsStrOr a b = specPrinter a b := by
  cases a with
  | none => rfl
  | some s =>
    have hs : s ≠ "" := fun hc => h (by rw [hc])
    simp [jsStrOr, specPrinter, hs]

/-- The code's copies block agrees with the claim's `-n` rule. -/
theorem copiesArgs_eq_specCopies (c : Option Nat) :
    copiesArgs c = specCopies c := by
  cases c with
  | none => rfl
  | some n =>
    by_cases hn : n > 1
    · have h0 : n ≠ 0 := by omega
      simp [copiesArgs, specCopies, h0, hn]
    · have h1 : (n != 0 && decide (n > 1)) = false := by simp [hn]
      simp only [copiesArgs, specCopies, h1]
      simp [hn]

/-- The code's duplex block agrees with the claim's sides rule. -/
theorem duplexArgs_eq_specSides (d : Option Duplex) :
    duplexArgs d = specSides d := by
  cases d with
  | none => rfl
  | some dv => cases dv <;> rfl

/-- The code's media block agrees with the claim's media rule when the
paper size is not the empty string. -/
theorem mediaArgs_eq_specMedia (ps : Option String) (h : ps ≠ some "") :
    mediaArgs ps = specMedia ps := by
  cases ps with
  | none => rfl
  | some s =>
    have hs : s ≠ "" := fun hc => h (by rw [hc])
    simp [mediaArgs, specMedia, hs]

/-- The code's orientation block agrees with the claim's 4/3 rule. -/
theorem orientArgs_eq_specOrientReq (r : Option Orient) :
    orientArgs r = specOrientReq r := by
  cases r with
  | none => rfl
  | some rv => cases rv <;> rfl

/-- The code's color block agrees with the claim's color/monochrome
rule. -/
theorem colorArgs_eq_specColorMode (b : Option Bool) :
    colorArgs b = specColorMode b := by
  cases b with
  | none => rfl
  | some bv => cases bv <;> rfl

/-- The code's fit-to-page block agrees with the claim's rule. -/
theorem fitToPageArgs_eq_specFit (b : Option Bool) :
    fitToPageArgs b = specFit b := by
  cases b with
  | none => rfl
  | some bv => cases bv <;> rfl

/-- C2: for an existing regular file (and an already-resolved printer
name), `UnixPDFPrinter.print` builds exactly the claimed CUPS grammar
and executes exactly that one `lp` command. Empty-string `printer` /
`paperSize` options are excluded: JS treats them as not given. -/
theorem c2_cups_command_grammar (env : UnixEnv) (st : UnixPrinterState)
    (pdfPath : String) (o : UnixPrintOptions)
    (hfile : env.pathStat pdfPath = PathStat.regularFile)
    (hinit : st.initialized = true)
    (hp : o.printer ≠ some "") (hps : o.paperSize ≠ some "") :
    buildLpArgs st.printerName pdfPath o = cupsGrammarSpec st.printerName pdfPath o ∧
    (UnixPDFPrinter.print env st pdfPath o).execed =
      ["lp " ++ joinSpace (cupsGrammarSpec st.printerName pdfPath o)] := by
  have hargs : buildLpArgs st.printerName pdfPath o =
      cupsGrammarSpec st.printerName pdfPath o := by
    rw [buildLpArgs, cupsGrammarSpec, jsStrOr_eq_specPrinter _ _ hp,
      copiesArgs_eq_specCopies, duplexArgs_eq_specSides,
      mediaArgs_eq_specMedia _ hps, orientArgs_eq_specOrientReq,
      colorArgs_eq_specColorMode, fitToPageArgs_eq_specFit]
  refine ⟨hargs, ?_⟩
  have hcmd : lpCommand st.printerName pdfPath o =
      "lp " ++ joinSpace (cupsGrammarSpec st.printerName pdfPath o) := by
    rw [lpCommand, hargs]
  simp only [UnixPDFPrinter.print, hfile, UnixPDFPrinter.init, hinit, if_true]
  rw [hcmd]
  cases env.exec ("lp " ++ joinSpace (cupsGrammarSpec st.printerName pdfPath o)) with
  | fail msg => simp
  | ok stdout stderr =>
    by_cases hstderr : (stderr != "" && !(jsIncludes stderr "request id")) = true <;>
      simp [hstderr]

/-- Environment for witnesses: every path is a regular file and every
command resolves silently. -/
def envAllOk : UnixEnv :=
  UnixEnv.mk (fun _ => PathStat.regularFile) (fun _ => ExecOutcome.ok "" "")

/-- Witness for C2 at a concrete initialized printer, file and options. -/
theorem c2_cups_command_grammar_witness :
    buildLpArgs "HP" "/tmp/doc.pdf" ouDupVert =
      cupsGrammarSpec "HP" "/tmp/doc.pdf" ouDupVert ∧
    (UnixPDFPrinter.print envAllOk (UnixPrinterState.mk "HP" true) "/tmp/doc.pdf"
        ouDupVert).execed =
      ["lp " ++ joinSpace (cupsGrammarSpec "HP" "/tmp/doc.pdf" ouDupVert)] :=
  c2_cups_command_grammar envAllOk (UnixPrinterState.mk "HP" true) "/tmp/doc.pdf"
    ouDupVert rfl rfl (by decide) (by decide)

/-- C3: platform dispatch — `getPlatform` answers `windows` exactly on
`win32` and `unix` otherwise, the facade `PDFPrinter` picks the Windows
implementation exactly on `win32`, every `PrinterManager` static method
delegates to the Windows manager exactly on `win32`, and
`getPrinterCapabilities` forwards the Windows result on `win32` and is
`null` on Unix. -/
theorem c3_platform_dispatch {α : Type} (plat : String) (winCaps : Option α) :
    (getPlatform plat = "windows" ↔ plat = "win32") ∧
    (getPlatform plat = "unix" ↔ plat ≠ "win32") ∧
    (PDFPrinter.backend plat = Backend.windows ↔ plat = "win32") ∧
    (PDFPrinter.backend plat = Backend.unix ↔ plat ≠ "win32") ∧
    (PrinterManager.getAvailablePrintersBackend plat = Backend.windows ↔ plat = "win32") ∧
    (PrinterManager.getAvailablePrintersBackend plat = Backend.unix ↔ plat ≠ "win32") ∧
    (PrinterManager.getDefaultPrinterBackend plat = Backend.windows ↔ plat = "win32") ∧
    (PrinterManager.getDefaultPrinterBackend plat = Backend.unix ↔ plat ≠ "win32") ∧
    (PrinterManager.printerExistsBackend plat = Backend.windows ↔ plat = "win32") ∧
    (PrinterManager.printerExistsBackend plat = Backend.unix ↔ plat ≠ "win32") ∧
    (plat = "win32" → PrinterManager.getPrinterCapabilitiesDispatch plat winCaps = winCaps) ∧
    (plat ≠ "win32" → PrinterManager.getPrinterCapabilitiesDispatch plat winCaps = none) := by
  by_cases h : plat = "win32" <;>
    simp [getPlatform, isWindowsPlatform, PDFPrinter.backend,
      PrinterManager.getAvailablePrintersBackend,
      PrinterManager.getDefaultPrinterBackend,
      PrinterManager.printerExistsBackend,
      PrinterManager.getPrinterCapabilitiesDispatch, h]

/-- Witness for C3 at the concrete platforms `win32` and `linux`. -/
theorem c3_platform_dispatch_witness :
    getPlatform "win32" = "windows" ∧ getPlatform "linux" = "unix" ∧
    PDFPrinter.backend "linux" = Backend.unix ∧
    PrinterManager.getPrinterCapabilitiesDispatch "linux" (some 1) = none ∧
    PrinterManager.getPrinterCapabilitiesDispatch "win32" (some 1) = some 1 :=
  ⟨((c3_platform_dispatch "win32" (some 1)).1).mpr rfl,
   ((c3_platform_dispatch "linux" (some 1)).2.1).mpr (by decide),
   ((c3_platform_dispatch "linux" (some 1)).2.2.2.1).mpr (by decide),
   ((c3_platform_dispatch "linux" (some (1:Nat))).2.2.2.2.2.2.2.2.2.2.2) (by decide),
   ((c3_platform_dispatch "win32" (some (1:Nat))).2.2.2.2.2.2.2.2.2.2.1) rfl⟩

/-- C4: a missing path is rejected with `PDF file not found: <path>` and
an existing non-file with `Path is not a file: <path>`, on both
platforms, before any shell command is executed or any spooler call is
made (empty traces), so no print job is submitted. -/
theorem c4_file_checks_before_printing
    (env : UnixEnv) (st : UnixPrinterState) (p1 p2 : String)
    (ou : UnixPrintOptions) (spool : WinSpoolEnv) (fsStat : String → PathStat)
    (instName p3 p4 : String) (ow : WinPrintOptions)
    (h1 : env.pathStat p1 = PathStat.missing)
    (h2 : env.pathStat p2 = PathStat.notAFile)
    (h3 : fsStat p3 = PathStat.missing)
    (h4 : fsStat p4 = PathStat.notAFile) :
    UnixPDFPrinter.print env st p1 ou =
      UnixPrintOutcome.mk (Except.error ("PDF file not found: " ++ p1)) [] ∧
    UnixPDFPrinter.print env st p2 ou =
      UnixPrintOutcome.mk (Except.error ("Path is not a file: " ++ p2)) [] ∧
    PDFPrinter.winPrint spool fsStat instName p3 ow =
      (Except.error ("PDF file not found: " ++ p3), []) ∧
    PDFPrinter.winPrint spool fsStat instName p4 ow =
      (Except.error ("Path is not a file: " ++ p4), []) := by
  refine ⟨?_, ?_, ?_, ?_⟩ <;>
    simp [UnixPDFPrinter.print, PDFPrinter.winPrint, h1, h2, h3, h4]

/-- Filesystem for the C4 witness: `gone.pdf` is absent, everything
else exists but is not a regular file. -/
def envMixed : UnixEnv :=
  UnixEnv.mk
    (fun p => if p = "gone.pdf" then PathStat.missing else PathStat.notAFile)
    (fun _ => ExecOutcome.ok "" "")

/-- Spooler environment where every call succeeds (job id 7). -/
def spoolAllOk : WinSpoolEnv :=
  WinSpoolEnv.mk true "Failed to open printer" (some 7) true true (some 0)

/-- Witness for C4 at the concrete paths `gone.pdf` and `somedir`. -/
theorem c4_file_checks_before_printing_witness :
    UnixPDFPrinter.print envMixed (UnixPrinterState.mk "HP" true) "gone.pdf" ouDupVert =
      UnixPrintOutcome.mk (Except.error "PDF file not found: gone.pdf") [] ∧
    UnixPDFPrinter.print envMixed (UnixPrinterState.mk "HP" true) "somedir" ouDupVert =
      UnixPrintOutcome.mk (Except.error "Path is not a file: somedir") [] ∧
    PDFPrinter.winPrint spoolAllOk envMixed.pathStat "HP" "gone.pdf" owDupVert =
      (Except.error "PDF file not found: gone.pdf", []) ∧
    PDFPrinter.winPrint spoolAllOk envMixed.pathStat "HP" "somedir" owDupVert =
      (Except.error "Path is not a file: somedir", []) :=
  c4_file_checks_before_printing envMixed (UnixPrinterState.mk "HP" true)
    "gone.pdf" "somedir" ouDupVert spoolAllOk envMixed.pathStat "HP"
    "gone.pdf" "somedir" owDupVert rfl rfl rfl rfl

/-- C5: printer-not-found classification — a Windows `PDFPrinter`
constructed with a name that is not among the available printers fails
with `Printer not found: <name>`; on Unix the same failure comes from
`initialize` (and hence from the first `print` on an existing file)
when the stored name is not listed by lpstat; and with no name and no
printer on the system both sides fail with
`No printers found on this system`. -/
theorem c5_printer_not_found
    (wenv : WinManagerEnv) (name : String) (uenv : UnixEnv)
    (uname path : String) (o : UnixPrintOptions) :
    (name ≠ "" → WinPrinterManager.printerExists wenv name = false →
      PDFPrinter.mkWin wenv (some name) =
        Except.error ("Printer not found: " ++ name)) ∧
    (jsTruthyStr wenv.defaultPrinter = false → wenv.printers = [] →
      PDFPrinter.mkWin wenv none =
        Except.error "No printers found on this system") ∧
    (uname ≠ "" →
      (UnixPrinterManager.printerExists uenv uname).1 = Except.ok false →
      (UnixPDFPrinter.init uenv (UnixPrinterState.mk uname false)).1 =
        Except.error ("Printer not found: " ++ uname)) ∧
    (uname ≠ "" →
      (UnixPrinterManager.printerExists uenv uname).1 = Except.ok false →
      uenv.pathStat path = PathStat.regularFile →
      (UnixPDFPrinter.print uenv (UnixPrinterState.mk uname false) path o).result =
        Except.error ("Printer not found: " ++ uname)) ∧
    ((UnixPrinterManager.getDefaultPrinter uenv).1 = Except.ok none →
      (UnixPrinterManager.getAvailablePrinters uenv).1 = Except.ok [] →
      (UnixPDFPrinter.init uenv (UnixPrinterState.mk "" false)).1 =
        Except.error "No printers found on this system") := by
  refine ⟨?_, ?_, ?_, ?_, ?_⟩
  · intro hn hex
    simp [PDFPrinter.mkWin, jsTruthyStr, hn, hex]
  · intro hd hp
    have hnone : jsTruthyStr (none : Option String) = false := rfl
    simp [PDFPrinter.mkWin, hnone, hd, hp]
  · intro hn hex
    rcases hpe : UnixPrinterManager.printerExists uenv uname with ⟨r, tr⟩
    rw [hpe] at hex
    simp only at hex
    subst hex
    simp [UnixPDFPrinter.init, hn, hpe]
  · intro hn hex hf
    rcases hpe : UnixPrinterManager.printerExists uenv uname with ⟨r, tr⟩
    rw [hpe] at hex
    simp only at hex
    subst hex
    have hini : UnixPDFPrinter.init uenv (UnixPrinterState.mk uname false) =
        (Except.error ("Printer not found: " ++ uname), tr) := by
      simp [UnixPDFPrinter.init, hn, hpe]
    simp [UnixPDFPrinter.print, hf, hini]
  · intro hd ha
    rcases hdp : UnixPrinterManager.getDefaultPrinter uenv with ⟨rd, trd⟩
    rw [hdp] at hd
    simp only at hd
    subst hd
    rcases hap : UnixPrinterManager.getAvailablePrinters uenv with ⟨ra, tra⟩
    rw [hap] at ha
    simp only at ha
    subst ha
    simp [UnixPDFPrinter.init, hdp, hap, jsTruthyStr]

/-- Unix host with no printers for the C5 witness: lpstat reports no
default destination and lists nothing. -/
def envNoPrinters : UnixEnv :=
  UnixEnv.mk (fun _ => PathStat.regularFile)
    (fun c =>
      if c = lpstatDefaultCmd then
        ExecOutcome.ok "no system default destination" ""
      else ExecOutcome.ok "" "")

/-- Witness for C5 at the concrete printer name `Ghost` on a system
with no printers at all. -/
theorem c5_printer_not_found_witness :
    PDFPrinter.mkWin (WinManagerEnv.mk [] none) (some "Ghost") =
      Except.error "Printer not found: Ghost" ∧
    PDFPrinter.mkWin (WinManagerEnv.mk [] none) none =
      Except.error "No printers found on this system" ∧
    (UnixPDFPrinter.init envNoPrinters (UnixPrinterState.mk "Ghost" false)).1 =
      Except.error "Printer not found: Ghost" ∧
    (UnixPDFPrinter.print envNoPrinters (UnixPrinterState.mk "Ghost" false)
        "/tmp/d.pdf" ouDupVert).result =
      Except.error "Printer not found: Ghost" ∧
    (UnixPDFPrinter.init envNoPrinters (UnixPrinterState.mk "" false)).1 =
      Except.error "No printers found on this system" :=
  have h := c5_printer_not_found (WinManagerEnv.mk [] none) "Ghost"
    envNoPrinters "Ghost" "/tmp/d.pdf" ouDupVert
  ⟨h.1 (by decide) rfl, h.2.1 rfl rfl, h.2.2.1 (by decide) rfl,
   h.2.2.2.1 (by decide) rfl rfl, h.2.2.2.2 rfl rfl⟩

/-- A character list is a Boolean prefix of itself. -/
theorem isPrefixL_refl (l : List Char) : isPrefixL l l = true := by
  induction l with
  | nil => rfl
  | cons c cs ih => simp [isPrefixL, ih]

/-- Searching a pattern inside itself succeeds. -/
theorem subAfter_self_isSome (pat : List Char) :
    (subAfter pat pat).isSome = true := by
  cases pat with
  | nil => rfl
  | cons c cs => simp [subAfter, isPrefixL_refl]

/-- Searching a pattern in any string that ends with it succeeds. -/
theorem subAfter_append_isSome (pre pat : List Char) :
    (subAfter pat (pre ++ pat)).isSome = true := by
  induction pre with
  | nil => simpa using subAfter_self_isSome pat
  | cons c cs ih =>
    simp only [List.cons_append, subAfter]
    split
    · rfl
    · exact ih

/-- String append concatenates the underlying character lists. -/
theorem string_data_append (a b : String) : (a ++ b).data = a.data ++ b.data := by
  cases a
  cases b
  rfl

/-- A JS string always includes its own suffix. -/
theorem jsIncludes_append_self (pre s : String) :
    jsIncludes (pre ++ s) s = true := by
  show (subAfter s.data (pre ++ s).data).isSome = true
  rw [string_data_append]
  exact subAfter_append_isSome pre.data s.data

/-- Spooler environment refuting C6: the document starts (job id 7) but
`StartPagePrinter` fails while `GetLastError` reports 1234. -/
def spoolPageFail : WinSpoolEnv :=
  WinSpoolEnv.mk true "Failed to open printer" (some 7) false true (some 1234)

/-- Spooler environment where only `WritePrinter` fails, with
`GetLastError` reporting 1234. -/
def spoolWriteFail : WinSpoolEnv :=
  WinSpoolEnv.mk true "Failed to open printer" (some 7) true false (some 1234)

/-- Counterexample to C6 as stated: with the platform's last error 1234,
a failing `StartPagePrinter` makes both print paths throw the fixed
message `Failed to start page`, and a failing `WritePrinter` throws
`Failed to write data to printer` — neither message carries the
last-error code 1234, so these failures do not surface the platform's
last-error code. -/
theorem c6_counterexample :
    (PDFPrinter.winPrintRaw spoolPageFail "Doc" owDupVert).1 =
      Except.error "Failed to start page" ∧
    (PDFPrinter.winPrint spoolPageFail (fun _ => PathStat.regularFile) "HP"
        "/tmp/d.pdf" owDupVert).1 =
      Except.error "Failed to start page" ∧
    PDFPrinter.getLastErr spoolPageFail = 1234 ∧
    jsIncludes "Failed to start page" "1234" = false ∧
    (PDFPrinter.winPrintRaw spoolWriteFail "Doc" owDupVert).1 =
      Except.error "Failed to write data to printer" ∧
    jsIncludes "Failed to write data to printer" "1234" = false := by
  refine ⟨rfl, rfl, rfl, ?_, rfl, ?_⟩ <;> decide

/-- C6 amended: only the `StartDocPrinterW` failure carries the
platform's last-error code — a 0 or undefined job id makes `print` and
`printRaw` throw `Failed to start print job. Windows error code:
<GetLastError>` — while `StartPagePrinter` and `WritePrinter` failures
throw the fixed messages `Failed to start page` and
`Failed to write data to printer` without the code. -/
theorem c6_amended_spooler_error_codes (spool : WinSpoolEnv)
    (fsStat : String → PathStat) (instName path doc : String)
    (ow : WinPrintOptions) (hopen : spool.openOk = true) :
    (jsFalsyNum spool.startDocRes = true →
      (fsStat path = PathStat.regularFile →
        (PDFPrinter.winPrint spool fsStat instName path ow).1 =
          Except.error ("Failed to start print job. Windows error code: "
            ++ toString (PDFPrinter.getLastErr spool))) ∧
      (PDFPrinter.winPrintRaw spool doc ow).1 =
        Except.error ("Failed to start print job. Windows error code: "
          ++ toString (PDFPrinter.getLastErr spool))) ∧
    (jsFalsyNum spool.startDocRes = false → spool.startPageOk = false →
      (fsStat path = PathStat.regularFile →
        (PDFPrinter.winPrint spool fsStat instName path ow).1 =
          Except.error "Failed to start page") ∧
      (PDFPrinter.winPrintRaw spool doc ow).1 =
        Except.error "Failed to start page") ∧
    (jsFalsyNum spool.startDocRes = false → spool.startPageOk = true →
      spool.writeOk = false →
      (fsStat path = PathStat.regularFile →
        (PDFPrinter.winPrint spool fsStat instName path ow).1 =
          Except.error "Failed to write data to printer") ∧
      (PDFPrinter.winPrintRaw spool doc ow).1 =
        Except.error "Failed to write data to printer") := by
  have hjob : (spool.startDocRes == some 0 || spool.startDocRes == none) =
      jsFalsyNum spool.startDocRes := by
    cases spool.startDocRes with
    | none => rfl
    | some n => exact Bool.or_false (n == 0)
  refine ⟨fun hj => ⟨fun hf => ?_, ?_⟩, fun hj hsp => ⟨fun hf => ?_, ?_⟩,
    fun hj hsp hw => ⟨fun hf => ?_, ?_⟩⟩ <;>
    simp_all [PDFPrinter.winPrint, PDFPrinter.winPrintRaw, winDocCore, hjob]

/-- Witness for C6 amended at concrete spooler environments: job id 0
with last error 5, and an undefined job id with a throwing
`GetLastError` (code 0). -/
theorem c6_amended_spooler_error_codes_witness :
    (PDFPrinter.winPrintRaw (WinSpoolEnv.mk true "e" (some 0) true true (some 5))
        "Doc" owDupVert).1 =
      Except.error "Failed to start print job. Windows error code: 5" ∧
    (PDFPrinter.winPrint (WinSpoolEnv.mk true "e" none true true none)
        (fun _ => PathStat.regularFile) "HP" "/tmp/d.pdf" owDupVert).1 =
      Except.error "Failed to start print job. Windows error code: 0" :=
  ⟨(c6_amended_spooler_error_codes
      (WinSpoolEnv.mk true "e" (some 0) true true (some 5))
      (fun _ => PathStat.regularFile) "HP" "/tmp/d.pdf" "Doc" owDupVert rfl).1
        rfl |>.2,
   ((c6_amended_spooler_error_codes
      (WinSpoolEnv.mk true "e" none true true none)
      (fun _ => PathStat.regularFile) "HP" "/tmp/d.pdf" "Doc" owDupVert rfl).1
        rfl).1 rfl⟩

/-- C7: CLI-command-failed carries stderr — for an existing file and a
successfully resolved printer, stderr without `request id` rejects with
`Failed to print: Print command failed: <stderr>`, a failing lp command
rejects with a message containing the underlying failure message, and
empty or `request id` stderr resolves successfully. -/
theorem c7_cli_stderr_passthrough (env : UnixEnv) (st st2 : UnixPrinterState)
    (path : String) (o : UnixPrintOptions) (tr : List String)
    (hf : env.pathStat path = PathStat.regularFile)
    (hini : UnixPDFPrinter.init env st = (Except.ok st2, tr)) :
    (∀ stdout stderr,
      env.exec (lpCommand st2.printerName path o) = ExecOutcome.ok stdout stderr →
      (stderr ≠ "" → jsIncludes stderr "request id" = false →
        (UnixPDFPrinter.print env st path o).result =
          Except.error ("Failed to print: Print command failed: " ++ stderr)) ∧
      (stderr = "" ∨ jsIncludes stderr "request id" = true →
        (UnixPDFPrinter.print env st path o).result = Except.ok ())) ∧
    (∀ msg, env.exec (lpCommand st2.printerName path o) = ExecOutcome.fail msg →
      (UnixPDFPrinter.print env st path o).result =
        Except.error ("Failed to print: " ++ msg) ∧
      jsIncludes ("Failed to print: " ++ msg) msg = true) := by
  constructor
  · intro stdout stderr henv
    constructor
    · intro hne hninc
      simp [UnixPDFPrinter.print, hf, hini, henv, hne, hninc]
    · intro hok
      rcases hok with he | hinc
      · simp [UnixPDFPrinter.print, hf, hini, henv, he]
      · simp [UnixPDFPrinter.print, hf, hini, henv, hinc]
  · intro msg henv
    exact ⟨by simp [UnixPDFPrinter.print, hf, hini, henv],
      jsIncludes_append_self "Failed to print: " msg⟩

/-- Unix host for the C7 witness: the file exists, and any `lp` command
produces the stderr `lp: The printer is offline.`. -/
def envStderrNoise : UnixEnv :=
  UnixEnv.mk (fun _ => PathStat.regularFile)
    (fun c =>
      if c = lpstatDefaultCmd then ExecOutcome.ok "" ""
      else if c = lpstatListCmd then ExecOutcome.ok "" ""
      else ExecOutcome.ok "" "lp: The printer is offline.")

/-- Witness for C7: concrete stderr without `request id` is rethrown
wrapped, and concrete `request id` stderr resolves. -/
theorem c7_cli_stderr_passthrough_witness :
    (UnixPDFPrinter.print envStderrNoise (UnixPrinterState.mk "HP" true)
        "/tmp/d.pdf" ouDupVert).result =
      Except.error "Failed to print: Print command failed: lp: The printer is offline." ∧
    (UnixPDFPrinter.print
        (UnixEnv.mk (fun _ => PathStat.regularFile)
          (fun _ => ExecOutcome.ok "" "request id is HP-42"))
        (UnixPrinterState.mk "HP" true) "/tmp/d.pdf" ouDupVert).result =
      Except.ok () :=
  ⟨((c7_cli_stderr_passthrough envStderrNoise (UnixPrinterState.mk "HP" true)
      (UnixPrinterState.mk "HP" true) "/tmp/d.pdf" ouDupVert [] rfl rfl).1
      "" "lp: The printer is offline." rfl).1 (by decide) (by decide),
   ((c7_cli_stderr_passthrough
      (UnixEnv.mk (fun _ => PathStat.regularFile)
        (fun _ => ExecOutcome.ok "" "request id is HP-42"))
      (UnixPrinterState.mk "HP" true) (UnixPrinterState.mk "HP" true)
      "/tmp/d.pdf" ouDupVert [] rfl rfl).1
      "" "request id is HP-42" rfl).2 (Or.inr (by decide))⟩

/-- Unix host whose shell always fails (lpstat unavailable), refuting
C8. -/
def envLpstatDown : UnixEnv :=
  UnixEnv.mk (fun _ => PathStat.regularFile)
    (fun _ => ExecOutcome.fail "lpstat: command not found")

/-- Counterexample to C8 as stated: with every lpstat invocation
failing, `getAvailablePrinters` resolves with the empty list and
`getDefaultPrinter` resolves with null — substituted success values,
not surfaced failures. -/
theorem c8_counterexample :
    (UnixPrinterManager.getAvailablePrinters envLpstatDown).1 = Except.ok [] ∧
    (UnixPrinterManager.getDefaultPrinter envLpstatDown).1 = Except.ok none ∧
    ¬ (∃ e, (UnixPrinterManager.getAvailablePrinters envLpstatDown).1 =
        Except.error e) ∧
    ¬ (∃ e, (UnixPrinterManager.getDefaultPrinter envLpstatDown).1 =
        Except.error e) := by
  refine ⟨rfl, rfl, ?_, ?_⟩ <;> rintro ⟨e, h⟩
  · rw [show (UnixPrinterManager.getAvailablePrinters envLpstatDown).1 =
        Except.ok [] from rfl] at h
    exact Except.noConfusion h
  · rw [show (UnixPrinterManager.getDefaultPrinter envLpstatDown).1 =
        Except.ok none from rfl] at h
    exact Except.noConfusion h

/-- C8 amended: lpstat failures are masked, not surfaced — when the
lpstat invocation fails, `getAvailablePrinters` resolves with `[]` and
`getDefaultPrinter` resolves with `null`; neither rejects. -/
theorem c8_amended_lpstat_failures_masked (env : UnixEnv) (m1 m2 : String) :
    (env.exec lpstatListCmd = ExecOutcome.fail m1 →
      UnixPrinterManager.getAvailablePrinters env =
        (Except.ok [], [lpstatListCmd])) ∧
    (env.exec lpstatDefaultCmd = ExecOutcome.fail m2 →
      UnixPrinterManager.getDefaultPrinter env =
        (Except.ok none, [lpstatDefaultCmd])) := by
  constructor
  · intro h; simp [UnixPrinterManager.getAvailablePrinters, h]
  · intro h; simp [UnixPrinterManager.getDefaultPrinter, h]

/-- Witness for C8 amended at the concrete failing host. -/
theorem c8_amended_lpstat_failures_masked_witness :
    UnixPrinterManager.getAvailablePrinters envLpstatDown =
      (Except.ok [], [lpstatListCmd]) ∧
    UnixPrinterManager.getDefaultPrinter envLpstatDown =
      (Except.ok none, [lpstatDefaultCmd]) :=
  ⟨(c8_amended_lpstat_failures_masked envLpstatDown "lpstat: command not found"
      "lpstat: command not found").1 rfl,
   (c8_amended_lpstat_failures_masked envLpstatDown "lpstat: command not found"
      "lpstat: command not found").2 rfl⟩

/-- The job-id test of `printRaw` agrees with the falsiness test of
`print`. -/
theorem beq_zero_or_none_eq_jsFalsyNum (x : Option Int) :
    (x == some 0 || x == none) = jsFalsyNum x := by
  cases x with
  | none => rfl
  | some n => exact Bool.or_false (n == 0)

/-- Pairing discipline of the shared document core: the trace closes
the handle exactly once and last, ends the document whenever the job
started with a good id, and ends the page whenever `StartPagePrinter`
succeeded. -/
theorem winDocCore_pairing (spool : WinSpoolEnv) (b : Bool) :
    ((winDocCore spool b).2.count SpoolEv.openP =
      (winDocCore spool b).2.count SpoolEv.closeP) ∧
    ((winDocCore spool b).2.getLast? = some SpoolEv.closeP) ∧
    (b = false → SpoolEv.startDocCall ∈ (winDocCore spool b).2 →
      SpoolEv.endDoc ∈ (winDocCore spool b).2) ∧
    (spool.startPageOk = true → SpoolEv.startPageCall ∈ (winDocCore spool b).2 →
      SpoolEv.endPage ∈ (winDocCore spool b).2) := by
  obtain ⟨op, oe, sd, sp, w, le⟩ := spool
  cases b <;> cases sp <;> cases w <;>
    refine ⟨rfl, rfl, ?_, ?_⟩ <;> intro h1 h2 <;> simp_all [winDocCore]

/-- The four pairing properties hold for both possible trace shapes of
a print operation: the empty trace (validation or open failed) and the
document-core trace. -/
theorem trace_pairing_cases (spool : WinSpoolEnv) (tr : List SpoolEv)
    (h : tr = [] ∨ tr = (winDocCore spool (jsFalsyNum spool.startDocRes)).2) :
    (tr.count SpoolEv.openP = tr.count SpoolEv.closeP) ∧
    (SpoolEv.openP ∈ tr → tr.getLast? = some SpoolEv.closeP) ∧
    (jsFalsyNum spool.startDocRes = false → SpoolEv.startDocCall ∈ tr →
      SpoolEv.endDoc ∈ tr) ∧
    (spool.startPageOk = true → SpoolEv.startPageCall ∈ tr →
      SpoolEv.endPage ∈ tr) := by
  rcases h with h | h <;> subst h
  · exact ⟨rfl, fun hm => absurd hm (List.not_mem_nil _),
      fun _ hm => absurd hm (List.not_mem_nil _),
      fun _ hm => absurd hm (List.not_mem_nil _)⟩
  · exact ⟨(winDocCore_pairing spool _).1,
      fun _ => (winDocCore_pairing spool _).2.1,
      (winDocCore_pairing spool _).2.2.1,
      (winDocCore_pairing spool _).2.2.2⟩

/-- The spooler-call trace of `PDFPrinter.print`. -/
def winPrintTrace (spool : WinSpoolEnv) (fsStat : String → PathStat)
    (instName path : String) (ow : WinPrintOptions) : List SpoolEv :=
  (PDFPrinter.winPrint spool fsStat instName path ow).2

/-- The spooler-call trace of `PDFPrinter.printRaw`. -/
def winPrintRawTrace (spool : WinSpoolEnv) (doc : String)
    (ow : WinPrintOptions) : List SpoolEv :=
  (PDFPrinter.winPrintRaw spool doc ow).2

/-- C9: Windows spooler calls are always paired, even on error — in
every execution of `print` and `printRaw` the trace closes every
successfully opened handle (equal open/close counts and `ClosePrinter`
last), runs `EndDocPrinter` once `StartDocPrinterW` returned a nonzero
job id, and runs `EndPagePrinter` once `StartPagePrinter` succeeded. -/
theorem c9_spooler_call_pairing (spool : WinSpoolEnv)
    (fsStat : String → PathStat) (instName path doc : String)
    (ow : WinPrintOptions) :
    ((winPrintTrace spool fsStat instName path ow).count SpoolEv.openP =
      (winPrintTrace spool fsStat instName path ow).count SpoolEv.closeP) ∧
    (SpoolEv.openP ∈ winPrintTrace spool fsStat instName path ow →
      (winPrintTrace spool fsStat instName path ow).getLast? =
        some SpoolEv.closeP) ∧
    (jsFalsyNum spool.startDocRes = false →
      SpoolEv.startDocCall ∈ winPrintTrace spool fsStat instName path ow →
      SpoolEv.endDoc ∈ winPrintTrace spool fsStat instName path ow) ∧
    (spool.startPageOk = true →
      SpoolEv.startPageCall ∈ winPrintTrace spool fsStat instName path ow →
      SpoolEv.endPage ∈ winPrintTrace spool fsStat instName path ow) ∧
    ((winPrintRawTrace spool doc ow).count SpoolEv.openP =
      (winPrintRawTrace spool doc ow).count SpoolEv.closeP) ∧
    (SpoolEv.openP ∈ winPrintRawTrace spool doc ow →
      (winPrintRawTrace spool doc ow).getLast? = some SpoolEv.closeP) ∧
    (jsFalsyNum spool.startDocRes = false →
      SpoolEv.startDocCall ∈ winPrintRawTrace spool doc ow →
      SpoolEv.endDoc ∈ winPrintRawTrace spool doc ow) ∧
    (spool.startPageOk = true →
      SpoolEv.startPageCall ∈ winPrintRawTrace spool doc ow →
      SpoolEv.endPage ∈ winPrintRawTrace spool doc ow) := by
  have hP : winPrintTrace spool fsStat instName path ow = [] ∨
      winPrintTrace spool fsStat instName path ow =
        (winDocCore spool (jsFalsyNum spool.startDocRes)).2 := by
    rw [winPrintTrace, PDFPrinter.winPrint]
    rcases fsStat path with _ | _ | _
    · exact Or.inl rfl
    · cases hop : spool.openOk with
      | false => exact Or.inl (by simp)
      | true => exact Or.inr (by simp)
    · exact Or.inl rfl
  have hR : winPrintRawTrace spool doc ow = [] ∨
      winPrintRawTrace spool doc ow =
        (winDocCore spool (jsFalsyNum spool.startDocRes)).2 := by
    rw [winPrintRawTrace, PDFPrinter.winPrintRaw,
      beq_zero_or_none_eq_jsFalsyNum]
    cases hop : spool.openOk with
    | false => exact Or.inl (by simp)
    | true => exact Or.inr (by simp)
  have g1 := trace_pairing_cases spool
    (winPrintTrace spool fsStat instName path ow) hP
  have g2 := trace_pairing_cases spool (winPrintRawTrace spool doc ow) hR
  exact ⟨g1.1, g1.2.1, g1.2.2.1, g1.2.2.2, g2.1, g2.2.1, g2.2.2.1, g2.2.2.2⟩

/-- Witness for C9 at the all-success spooler environment. -/
theorem c9_spooler_call_pairing_witness :
    ((winPrintRawTrace spoolAllOk "Doc" owDupVert).count SpoolEv.openP =
      (winPrintRawTrace spoolAllOk "Doc" owDupVert).count SpoolEv.closeP) ∧
    SpoolEv.endDoc ∈ winPrintRawTrace spoolAllOk "Doc" owDupVert ∧
    SpoolEv.endPage ∈ winPrintRawTrace spoolAllOk "Doc" owDupVert ∧
    (winPrintTrace spoolAllOk envAllOk.pathStat "HP" "/tmp/d.pdf"
        owDupVert).getLast? = some SpoolEv.closeP :=
  have h := c9_spooler_call_pairing spoolAllOk envAllOk.pathStat "HP"
    "/tmp/d.pdf" "Doc" owDupVert
  ⟨h.2.2.2.2.1,
   h.2.2.2.2.2.2.1 rfl (by decide),
   h.2.2.2.2.2.2.2 rfl (by decide),
   h.2.1 (by decide)⟩

/-- C10: `UnixPDFPrinter.printRaw` never leaves its temp file behind —
the temp path is `/tmp/<documentName>-<timestamp>.pdf`, after the call
(whether the write or the print succeeded or failed) that path is
absent, every other path keeps its prior status, and on a successful
write the result is exactly that of printing the temp file. -/
theorem c10_temp_file_cleanup (env : UnixEnv) (writeRes : WriteRes)
    (st : UnixPrinterState) (doc : String) (ts : Nat) (o : UnixPrintOptions) :
    tempPdfPath doc ts = "/tmp/" ++ doc ++ "-" ++ toString ts ++ ".pdf" ∧
    (UnixPDFPrinter.printRaw env writeRes st doc ts o).finalStat
      (tempPdfPath doc ts) = PathStat.missing ∧
    (∀ q, q ≠ tempPdfPath doc ts →
      (UnixPDFPrinter.printRaw env writeRes st doc ts o).finalStat q =
        env.pathStat q) ∧
    (writeRes = WriteRes.succeeds →
      (UnixPDFPrinter.printRaw env writeRes st doc ts o).result =
        (UnixPDFPrinter.print
          (UnixEnv.mk
            (updateStat env.pathStat (tempPdfPath doc ts) PathStat.regularFile)
            env.exec)
          st (tempPdfPath doc ts) o).result) := by
  refine ⟨rfl, ?_, ?_, ?_⟩
  · cases writeRes <;> simp [UnixPDFPrinter.printRaw, updateStat]
  · intro q hq
    cases writeRes <;> simp [UnixPDFPrinter.printRaw, updateStat, hq]
  · intro hw
    subst hw
    simp [UnixPDFPrinter.printRaw]

/-- Witness for C10 at a concrete document and timestamp. -/
theorem c10_temp_file_cleanup_witness :
    (UnixPDFPrinter.printRaw envAllOk WriteRes.succeeds
        (UnixPrinterState.mk "HP" true) "Doc" 42 ouDupVert).finalStat
      (tempPdfPath "Doc" 42) = PathStat.missing ∧
    (UnixPDFPrinter.printRaw envAllOk WriteRes.succeeds
        (UnixPrinterState.mk "HP" true) "Doc" 42 ouDupVert).finalStat
      "/keep.pdf" = envAllOk.pathStat "/keep.pdf" ∧
    (UnixPDFPrinter.printRaw envAllOk WriteRes.succeeds
        (UnixPrinterState.mk "HP" true) "Doc" 42 ouDupVert).result =
      (UnixPDFPrinter.print
        (UnixEnv.mk
          (updateStat envAllOk.pathStat (tempPdfPath "Doc" 42) PathStat.regularFile)
          envAllOk.exec)
        (UnixPrinterState.mk "HP" true) (tempPdfPath "Doc" 42) ouDupVert).result :=
  have h := c10_temp_file_cleanup envAllOk WriteRes.succeeds
    (UnixPrinterState.mk "HP" true) "Doc" 42 ouDupVert
  ⟨h.2.1, h.2.2.1 "/keep.pdf" (by decide), h.2.2.2 rfl⟩
